import Mathlib

set_option autoImplicit false
set_option maxRecDepth 10000

namespace Linkup

/-! Shallow embedding of linkup-cli/install.py: the data model, the pure logic of
each stage, and models of the effectful stages with their external inputs
(environment variables, network responses, subprocess outcomes) passed as
explicit parameters. -/

/-- Whether the first character list is a leading segment of the second.
Used to model the Python str.startswith method character by character. -/
def startswithChars : List Char → List Char → Bool
  | [], _ => true
  | _ :: _, [] => false
  | a :: as, b :: bs => a == b && startswithChars as bs

/-- Python str.startswith on strings. -/
def pyStartswith (s pre : String) : Bool :=
  startswithChars pre.data s.data

/-- Python str.endswith on strings. -/
def pyEndswith (s sfx : String) : Bool :=
  startswithChars sfx.data.reverse s.data.reverse

/-- ASCII lowercasing of one character, as Python str.lower acts on the
ASCII letters (the only characters relevant to the shell names compared). -/
def charLower (c : Char) : Char :=
  if 65 ≤ c.toNat ∧ c.toNat ≤ 90 then Char.ofNat (c.toNat + 32) else c

/-- Python str.lower, restricted to its ASCII action. -/
def pyLower (s : String) : String :=
  String.mk (s.data.map charLower)

/-- Helper for pySplit: accumulates the current piece in reverse. -/
def splitCharsAux (sep : Char) : List Char → List Char → List String
  | [], acc => [String.mk acc.reverse]
  | x :: xs, acc =>
    if x == sep then String.mk acc.reverse :: splitCharsAux sep xs []
    else splitCharsAux sep xs (x :: acc)

/-- Python str.split with a one-character separator: splits at every
occurrence; the empty string yields a single empty piece. -/
def pySplit (s : String) (sep : Char) : List String :=
  splitCharsAux sep s.data []

/-- The Shell enum of install.py. -/
inductive Shell where
  | bash
  | zsh
  | fish
  deriving DecidableEq

/-- The .name of a Shell enum member. -/
def Shell.name : Shell → String
  | .bash => "bash"
  | .zsh => "zsh"
  | .fish => "fish"

/-- Shell.from_str: lowercases the value and compares with bash, zsh, fish. -/
def Shell.from_str (value : String) : Option Shell :=
  let value_lower := pyLower value
  if value_lower = "bash" then some Shell.bash
  else if value_lower = "zsh" then some Shell.zsh
  else if value_lower = "fish" then some Shell.fish
  else none

/-- Shell.add_to_profile_command: the one-line command printed for the user.
The string interpolates Path.home(), passed here as the home parameter.
The byte \x27 is the ASCII apostrophe appearing in the f-strings. -/
def Shell.add_to_profile_command (s : Shell) (bin_path : String) (home : String) : String :=
  match s with
  | .bash => "echo \x27export PATH=$PATH:" ++ bin_path ++ "\x27 >> " ++ home ++ "/.bashrc"
  | .zsh => "echo \x27export PATH=$PATH:" ++ bin_path ++ "\x27 >> " ++ home ++ "/.zshrc"
  | .fish => "echo \x27set -gx PATH $PATH " ++ bin_path ++ "\x27 >> " ++ home
      ++ "/.config/fish/config.fish"

/-- The OS enum: each variant carries its target-triple suffix as .value. -/
inductive OS where
  | MacOS
  | Linux
  deriving DecidableEq

/-- OS member value (target-triple suffix string). -/
def OS.value : OS → String
  | .MacOS => "apple-darwin"
  | .Linux => "unknown-linux-gnu"

/-- The Arch enum: each variant carries its canonical string as .value. -/
inductive Arch where
  | x86_64
  | arm64
  deriving DecidableEq

/-- Arch member value (canonical architecture string). -/
def Arch.value : Arch → String
  | .x86_64 => "x86_64"
  | .arm64 => "aarch64"

/-- The Channel enum. -/
inductive Channel where
  | stable
  | beta
  deriving DecidableEq

/-- Channel member name. -/
def Channel.name : Channel → String
  | .stable => "stable"
  | .beta => "beta"

/-- GithubReleaseAsset dataclass. -/
structure GithubReleaseAsset where
  name : String
  browser_download_url : String
  deriving DecidableEq

/-- GithubRelease dataclass. -/
structure GithubRelease where
  tag_name : String
  prerelease : Bool
  assets : List GithubReleaseAsset
  deriving DecidableEq

/-- detect_platform, with os.uname().sysname and os.uname().machine as inputs.
A sys.exit is modelled as Except.error carrying the printed message and the
exit code. The OS check runs first, then the Arch check, as in the source. -/
def detect_platform (sysname machine : String) : Except (String × Nat) (OS × Arch) :=
  match (if pyStartswith sysname "Darwin" then some OS.MacOS
         else if pyStartswith sysname "Linux" then some OS.Linux
         else none) with
  | none => Except.error ("Unsupported OS: " ++ sysname, 1)
  | some fetch_os =>
    match (if machine = "arm64" ∨ machine = "aarch64" then some Arch.arm64
           else if machine = "x86_64" then some Arch.x86_64
           else none) with
    | none => Except.error ("Unsupported Arch: " ++ machine, 1)
    | some fetch_arch => Except.ok (fetch_os, fetch_arch)

/-- The literal tail of the asset pattern after the dot-plus group:
a dash, the arch token, a dash, the OS token, and the .tar.gz extension. -/
def tarballSuffix (user_arch : Arch) (user_os : OS) : String :=
  "-" ++ user_arch.value ++ "-" ++ user_os.value ++ ".tar.gz"

/-- Python re.match of the compiled pattern linkup dash, dot-plus, then
tarballSuffix, then a dollar anchor, against name: anchored at the start of
the string; the dot-plus group is one or more characters none of which is a
newline; the dollar matches at the end of the string or just before a single
final newline. The arch and OS tokens contain no regex metacharacters, so the
rest of the pattern is literal. Since the literal tail has a fixed length and
ends in the letter z, a matching decomposition of name is unique, giving this
direct decision procedure. -/
def asset_pattern_match (user_arch : Arch) (user_os : OS) (name : String) : Bool :=
  let core := if pyEndswith name "\n" then name.dropRight 1 else name
  let sfx := tarballSuffix user_arch user_os
  pyStartswith core "linkup-" && pyEndswith core sfx &&
    decide ("linkup-".length + sfx.length < core.length) &&
    !((core.drop "linkup-".length).dropRight sfx.length).data.contains (Char.ofNat 10)

/-- The generator-with-next step of download_and_extract: the
browser_download_url of the first asset whose name matches the pattern. -/
def findDownloadUrl (user_arch : Arch) (user_os : OS)
    (assets : List GithubReleaseAsset) : Option String :=
  (assets.find? (fun asset => asset_pattern_match user_arch user_os asset.name)).map
    (fun asset => asset.browser_download_url)

/-- The line printed on entry to the beta branch of get_release_data. -/
def lookingForBetaMsg : String := "Looking for the latest beta version..."

/-- The diagnostic printed when the beta branch finds no pre-release. -/
def fallbackMsg : String := "No pre-releases found. Falling back to latest stable release."

/-- get_release_data with the network responses passed as inputs: the parsed
body of the releases-list endpoint (list_releases) and of the latest-release
endpoint (get_latest_stable_release), each of which can instead fail
(unreachable host or malformed JSON). Such a failure is an uncaught exception
terminating the process, modelled as Except.error with the exit code 1.
Returns the selected release together with the lines this function prints.
On the beta channel only the releases list is fetched up front; the
latest-release endpoint is consulted only on the fallback, and the stable
channel consults only the latest-release endpoint. -/
def get_release_data (channel : Channel)
    (releasesResult : Except Unit (List GithubRelease))
    (latestStableResult : Except Unit GithubRelease) :
    Except Nat (GithubRelease × List String) :=
  match channel with
  | Channel.beta =>
    match releasesResult with
    | Except.error _ => Except.error 1
    | Except.ok releases =>
      match releases.filter (fun r => r.prerelease) with
      | [] =>
        match latestStableResult with
        | Except.error _ => Except.error 1
        | Except.ok latest => Except.ok (latest, [lookingForBetaMsg, fallbackMsg])
      | r :: _ =>
        Except.ok (r, [lookingForBetaMsg, "Found pre-release version: " ++ r.tag_name])
  | Channel.stable =>
    match latestStableResult with
    | Except.error _ => Except.error 1
    | Except.ok latest => Except.ok (latest, [])

/-- Which extractall call tar_extract makes. -/
inductive ExtractMode where
  | unfiltered
  | dataFilter
  deriving DecidableEq

/-- tar_extract dispatches on the running Python version: below 3.12 it calls
tar.extractall(path) with no filter argument; from 3.12 on it passes the
data filter. The two version tests of the source are kept as written; none
means neither branch fires and no extraction call is made. -/
def tar_extract_mode (major minor : Nat) : Option ExtractMode :=
  if major < 3 ∨ (major = 3 ∧ minor < 12) then some ExtractMode.unfiltered
  else if 3 < major ∨ (major = 3 ∧ 12 ≤ minor) then some ExtractMode.dataFilter
  else none

/-- Modelled from the behaviour of the CPython tarfile module, which is not
part of this repository: an entry name resolves outside the extraction target
directory when it is absolute or when it climbs out with a dot-dot
component. -/
def entryEscapesTarget (entryName : String) : Bool :=
  pyStartswith entryName "/" || (pySplit entryName '/').contains ".."

/-- Modelled from the behaviour of the CPython tarfile module, which is not
part of this repository: extractall with the data filter refuses to place any
entry outside the target directory, while extractall without a filter writes
each entry at its resolved path, even outside the target. True means the
entry is written outside the extraction target directory. -/
def writtenOutsideTarget (mode : ExtractMode) (entryName : String) : Bool :=
  match mode with
  | ExtractMode.dataFilter => false
  | ExtractMode.unfiltered => entryEscapesTarget entryName

/-- Existence of the two temporary files of download_and_extract:
the downloaded archive at /tmp and the extracted binary /tmp/linkup. -/
structure TmpFiles where
  tarExists : Bool
  binExists : Bool
  deriving DecidableEq

/-- The external operation inside the try block of download_and_extract that
raises during a given run, if any; the payload flags say whether the
operation had already created its output file when it raised. -/
inductive InstallFailure where
  | duringDownload (tarWritten : Bool)
  | duringExtract (binWritten : Bool)
  | duringMove
  | duringChmod
  | duringSetcap
  deriving DecidableEq

/-- The try-block body of download_and_extract: download the archive, extract
it, then move the binary into place and set its permissions (directly on
macOS; via elevated subprocesses, plus setcap, on Linux). Returns the
temporary-file state at the moment the body finishes or raises, and the
raised exception if any. A successful move removes the temporary binary. -/
def installBody (user_os : OS) (fail : Option InstallFailure) (fs : TmpFiles) :
    TmpFiles × Option InstallFailure :=
  match fail with
  | some (InstallFailure.duringDownload tarWritten) =>
    ({ fs with tarExists := tarWritten }, fail)
  | _ =>
    let fs1 : TmpFiles := { fs with tarExists := true }
    match fail with
    | some (InstallFailure.duringExtract binWritten) =>
      ({ fs1 with binExists := binWritten }, fail)
    | _ =>
      let fs2 : TmpFiles := { fs1 with binExists := true }
      match fail with
      | some InstallFailure.duringMove => (fs2, fail)
      | _ =>
        let fs3 : TmpFiles := { fs2 with binExists := false }
        match fail with
        | some InstallFailure.duringChmod => (fs3, fail)
        | _ =>
          match user_os, fail with
          | OS.Linux, some InstallFailure.duringSetcap => (fs3, fail)
          | _, _ => (fs3, none)

/-- The finally block of download_and_extract: unlink the temporary archive
if it exists, then unlink the temporary binary if it exists. -/
def installCleanup (fs : TmpFiles) : TmpFiles :=
  let fs1 := if fs.tarExists then { fs with tarExists := false } else fs
  if fs1.binExists then { fs1 with binExists := false } else fs1

/-- The message printed when no asset name matches the pattern. -/
def noTarballMsg : String := "Could not find matching tarball in the release assets."

/-- download_and_extract after release resolution: select the first matching
asset; with no match, print the error and sys.exit(1) before the try block;
otherwise run the try-block body and then, on every outcome, the finally
block. An exception raised in the body propagates uncaught, terminating the
process with exit code 1. Returns the exit outcome and the final
temporary-file state. -/
def download_and_extract (user_os : OS) (user_arch : Arch)
    (release : GithubRelease) (fail : Option InstallFailure) (fs0 : TmpFiles) :
    Except Nat Unit × TmpFiles :=
  match findDownloadUrl user_arch user_os release.assets with
  | none => (Except.error 1, fs0)
  | some _ =>
    let body := installBody user_os fail fs0
    let fs2 := installCleanup body.1
    match body.2 with
    | none => (Except.ok (), fs2)
    | some _ => (Except.error 1, fs2)

/-- os.path.basename: the component after the last slash. -/
def basename (p : String) : String :=
  ((pySplit p '/').reverse).headD ""

/-- setup_path, returning the list of lines it prints. target_location is the
resolved install directory, path_env and shell_env the values of the PATH and
SHELL environment variables (absent modelled as the empty string, as
os.environ.get defaults), home the value of Path.home(). -/
def setup_path (target_location : String) (path_env : String) (shell_env : String)
    (home : String) : List String :=
  if (pySplit path_env ':').contains target_location then []
  else
    let intro := "\nTo start using Linkup, add \x27" ++ target_location
      ++ "\x27 to your PATH."
    match Shell.from_str (basename shell_env) with
    | none => [intro]
    | some shell =>
      [intro,
       "Since you are using " ++ shell.name
         ++ ", you can run the following to add to your profile:",
       "\n  " ++ shell.add_to_profile_command target_location home,
       "\nThen restart your shell."]

/-- Modelled from the documented behaviour of the Python argparse module
(stdlib code, not part of this repository) for the parser built in
parse_arguments: one optional argument named channel, introduced by two
dashes, with choices stable and beta and default stable. Arguments are
scanned left to right; the flag may be given as two tokens or as one token
with an equals sign, may be repeated (the last occurrence wins), and any
unrecognized token, missing value, or value outside the choices is an
argument error: usage text and process exit with code 2. Abbreviated flag
spellings accepted by argparse are not modelled. -/
def parseArgsLoop : List String → Option Channel → Except Nat (Option Channel)
  | [], acc => Except.ok acc
  | s :: rest, acc =>
    if s = "--channel" then
      match rest with
      | [] => Except.error 2
      | v :: rest2 =>
        if v = "stable" then parseArgsLoop rest2 (some Channel.stable)
        else if v = "beta" then parseArgsLoop rest2 (some Channel.beta)
        else Except.error 2
    else if s = "--channel=stable" then parseArgsLoop rest (some Channel.stable)
    else if s = "--channel=beta" then parseArgsLoop rest (some Channel.beta)
    else Except.error 2

/-- parse_arguments: run the argparse model and apply the default. -/
def parse_arguments (args : List String) : Except Nat Channel :=
  match parseArgsLoop args none with
  | Except.error c => Except.error c
  | Except.ok none => Except.ok Channel.stable
  | Except.ok (some channel) => Except.ok channel

/-- The message of the already-installed early exit. -/
def alreadyInstalledMsg : String :=
  "Linkup is already installed. To update it, run \x27linkup update\x27."

/-- The two lines printed by check_dependencies when cloudflared is absent. -/
def cloudflaredWarnMsgs : List String :=
  ["WARN: \x27cloudflared\x27 is not installed. Please install it before installing Linkup.",
   "More info: https://developers.cloudflare.com/cloudflare-one/connections/connect-networks/downloads/"]

/-- The target_location main derives from the detected OS. -/
def target_location_str (user_os : OS) (home : String) : String :=
  match user_os with
  | OS.MacOS => home ++ "/.linkup/bin"
  | OS.Linux => "/usr/local/bin"

/-- Everything outside the process that a run of main observes: the two PATH
lookups of command_exists, argv without the program name, the uname fields,
the two possible GitHub responses, the failure point (if any) of the
download/extract/install operations, and the environment variables. -/
structure World where
  linkupOnPath : Bool
  cloudflaredOnPath : Bool
  argv : List String
  sysname : String
  machine : String
  releasesResult : Except Unit (List GithubRelease)
  latestStableResult : Except Unit GithubRelease
  installFailure : Option InstallFailure
  path_env : String
  shell_env : String
  home : String

/-- main: the five stages in order. Returns the process exit code and the
principal printed lines (the per-step progress prints inside
download_and_extract and the usage text of an argument error are not
tracked). Temporary files start absent at process start. -/
def main (w : World) : Nat × List String :=
  if w.linkupOnPath then
    (0, [alreadyInstalledMsg])
  else
    match parse_arguments w.argv with
    | Except.error c => (c, [])
    | Except.ok channel =>
      if !w.cloudflaredOnPath then
        (1, cloudflaredWarnMsgs)
      else
        match detect_platform w.sysname w.machine with
        | Except.error (msg, c) => (c, [msg])
        | Except.ok (user_os, user_arch) =>
          match get_release_data channel w.releasesResult w.latestStableResult with
          | Except.error c => (c, [])
          | Except.ok (release, msgs) =>
            let target := target_location_str user_os w.home
            let inst := download_and_extract user_os user_arch release
              w.installFailure { tarExists := false, binExists := false }
            match inst.1 with
            | Except.error c => (c, msgs)
            | Except.ok _ =>
              (0, msgs ++ setup_path target w.path_env w.shell_env w.home
                ++ ["Linkup installation complete! 🎉"])

/-- First asset of the worked example in the spec. -/
def exampleLinuxAsset : GithubReleaseAsset :=
  { name := "linkup-v1.2.3-x86_64-unknown-linux-gnu.tar.gz", browser_download_url := "u1" }

/-- Second asset of the worked example in the spec. -/
def exampleMacAsset : GithubReleaseAsset :=
  { name := "linkup-v1.2.3-aarch64-apple-darwin.tar.gz", browser_download_url := "u2" }

/-- The asset list of the worked example in the spec. -/
def exampleAssets : List GithubReleaseAsset :=
  [exampleLinuxAsset, exampleMacAsset]

/-- A stable release carrying the example assets. -/
def exampleRelease : GithubRelease :=
  { tag_name := "v1.2.3", prerelease := false, assets := exampleAssets }

/-- A pre-release carrying the example assets. -/
def examplePreRelease : GithubRelease :=
  { tag_name := "v2.0.0-beta.1", prerelease := true, assets := exampleAssets }

/-- A world where linkup is absent and cloudflared is missing. -/
def exampleWorldNoDep : World :=
  { linkupOnPath := false, cloudflaredOnPath := false, argv := [],
    sysname := "Linux", machine := "x86_64",
    releasesResult := Except.error (), latestStableResult := Except.error (),
    installFailure := none, path_env := "", shell_env := "", home := "/root" }

/-- A world where linkup is already on PATH and the arguments are invalid. -/
def exampleWorldInstalled : World :=
  { linkupOnPath := true, cloudflaredOnPath := false,
    argv := ["--channel", "nightly"], sysname := "Darwin", machine := "arm64",
    releasesResult := Except.error (), latestStableResult := Except.error (),
    installFailure := none, path_env := "", shell_env := "", home := "/root" }

/-- The head of the pre-release filter is the first pre-release found. -/
theorem filter_prerelease_head (l : List GithubRelease) :
    (l.filter (fun r => r.prerelease)).head? = l.find? (fun r => r.prerelease) := by
  induction l with
  | nil => rfl
  | cons x xs ih =>
    cases hx : x.prerelease with
    | true =>
      rw [List.filter_cons_of_pos (by simp [hx]), List.find?_cons_of_pos _ (by simp [hx])]
      rfl
    | false =>
      rw [List.filter_cons_of_neg (by simp [hx]), List.find?_cons_of_neg _ (by simp [hx])]
      exact ih

/-- A string starting with Linux does not start with Darwin. -/
theorem not_darwin_of_linux (s : String) (h : pyStartswith s "Linux" = true) :
    pyStartswith s "Darwin" = false := by
  have hL : "Linux".data = ['L', 'i', 'n', 'u', 'x'] := rfl
  have hD : "Darwin".data = ['D', 'a', 'r', 'w', 'i', 'n'] := rfl
  unfold pyStartswith at h ⊢
  rw [hL] at h
  rw [hD]
  cases hs : s.data with
  | nil => rw [hs] at h; simp [startswithChars] at h
  | cons a as =>
    rw [hs] at h
    simp only [startswithChars, Bool.and_eq_true, beq_iff_eq] at h
    simp only [startswithChars, Bool.and_eq_false_iff, beq_eq_false_iff_ne]
    left
    rw [← h.1]
    decide

/-- C3: platform detection maps a kernel name with the Darwin prefix to macOS
and with the Linux prefix to Linux, and machine type arm64 or aarch64 to
arm64 and x86_64 to x86_64; any other kernel name or machine type is a fatal
error reporting the raw offending value, with exit code 1 (non-zero). -/
theorem C3_detect_platform :
    (∀ sysname machine : String, pyStartswith sysname "Darwin" = true →
      (machine = "arm64" ∨ machine = "aarch64") →
      detect_platform sysname machine = Except.ok (OS.MacOS, Arch.arm64)) ∧
    (∀ sysname machine : String, pyStartswith sysname "Darwin" = true →
      machine = "x86_64" →
      detect_platform sysname machine = Except.ok (OS.MacOS, Arch.x86_64)) ∧
    (∀ sysname machine : String, pyStartswith sysname "Linux" = true →
      (machine = "arm64" ∨ machine = "aarch64") →
      detect_platform sysname machine = Except.ok (OS.Linux, Arch.arm64)) ∧
    (∀ sysname machine : String, pyStartswith sysname "Linux" = true →
      machine = "x86_64" →
      detect_platform sysname machine = Except.ok (OS.Linux, Arch.x86_64)) ∧
    (∀ sysname machine : String, pyStartswith sysname "Darwin" = false →
      pyStartswith sysname "Linux" = false →
      detect_platform sysname machine =
        Except.error ("Unsupported OS: " ++ sysname, 1)) ∧
    (∀ sysname machine : String,
      (pyStartswith sysname "Darwin" = true ∨ pyStartswith sysname "Linux" = true) →
      machine ≠ "arm64" → machine ≠ "aarch64" → machine ≠ "x86_64" →
      detect_platform sysname machine =
        Except.error ("Unsupported Arch: " ++ machine, 1)) := by
  refine ⟨?_, ?_, ?_, ?_, ?_, ?_⟩
  · intro sysname machine hD hm
    rcases hm with hm | hm <;> subst hm <;> simp [detect_platform, hD]
  · intro sysname machine hD hm
    subst hm
    simp [detect_platform, hD]
  · intro sysname machine hL hm
    have hD := not_darwin_of_linux sysname hL
    rcases hm with hm | hm <;> subst hm <;> simp [detect_platform, hD, hL]
  · intro sysname machine hL hm
    have hD := not_darwin_of_linux sysname hL
    subst hm
    simp [detect_platform, hD, hL]
  · intro sysname machine hD hL
    simp [detect_platform, hD, hL]
  · intro sysname machine hOS h1 h2 h3
    rcases hOS with hD | hL
    · simp [detect_platform, hD, h1, h2, h3]
    · have hD := not_darwin_of_linux sysname hL
      simp [detect_platform, hD, hL, h1, h2, h3]

/-- Witness for C3 at concrete platforms. -/
theorem C3_detect_platform_witness :
    detect_platform "Darwin" "arm64" = Except.ok (OS.MacOS, Arch.arm64) ∧
    detect_platform "Linux" "x86_64" = Except.ok (OS.Linux, Arch.x86_64) ∧
    detect_platform "FreeBSD" "x86_64" = Except.error ("Unsupported OS: " ++ "FreeBSD", 1) ∧
    detect_platform "Linux" "riscv64" = Except.error ("Unsupported Arch: " ++ "riscv64", 1) :=
  ⟨C3_detect_platform.1 "Darwin" "arm64" (by decide) (Or.inl rfl),
   C3_detect_platform.2.2.2.1 "Linux" "x86_64" (by decide) rfl,
   C3_detect_platform.2.2.2.2.1 "FreeBSD" "x86_64" (by decide) (by decide),
   C3_detect_platform.2.2.2.2.2 "Linux" "riscv64" (Or.inr (by decide))
     (by decide) (by decide) (by decide)⟩

/-- C1: asset selection matches the pattern built from the architecture and
OS tokens against each asset name in release order and takes the first
match; with no matching asset the run aborts with exit code 1; on the
worked example, (Linux, x86_64) selects the first asset, (macOS, arm64) the
second, and (macOS, x86_64) finds none. -/
theorem C1_asset_selection :
    (∀ (user_arch : Arch) (user_os : OS) (front post : List GithubReleaseAsset)
       (a : GithubReleaseAsset),
       asset_pattern_match user_arch user_os a.name = true →
       (∀ b ∈ front, asset_pattern_match user_arch user_os b.name = false) →
       findDownloadUrl user_arch user_os (front ++ a :: post) =
         some a.browser_download_url) ∧
    (∀ (user_os : OS) (user_arch : Arch) (release : GithubRelease)
       (fail : Option InstallFailure) (fs0 : TmpFiles),
       (∀ b ∈ release.assets, asset_pattern_match user_arch user_os b.name = false) →
       (download_and_extract user_os user_arch release fail fs0).1 = Except.error 1) ∧
    findDownloadUrl Arch.x86_64 OS.Linux exampleAssets = some "u1" ∧
    findDownloadUrl Arch.arm64 OS.MacOS exampleAssets = some "u2" ∧
    findDownloadUrl Arch.x86_64 OS.MacOS exampleAssets = none := by
  refine ⟨?_, ?_, by decide, by decide, by decide⟩
  · intro user_arch user_os front post a ha
    induction front with
    | nil =>
      intro _
      simp only [List.nil_append, findDownloadUrl, List.find?_cons, ha]
      rfl
    | cons b bs ih =>
      intro hfront
      have hb : asset_pattern_match user_arch user_os b.name = false :=
        hfront b (by simp)
      have hbs : ∀ x ∈ bs, asset_pattern_match user_arch user_os x.name = false :=
        fun x hx => hfront x (by simp [hx])
      have hrec := ih hbs
      simp only [findDownloadUrl] at hrec ⊢
      rw [List.cons_append]
      rw [List.find?_cons]
      simp only [hb]
      exact hrec
  · intro user_os user_arch release fail fs0 hall
    have hnone : release.assets.find?
        (fun asset => asset_pattern_match user_arch user_os asset.name) = none :=
      List.find?_eq_none.mpr (fun x hx => by simp [hall x hx])
    simp [download_and_extract, findDownloadUrl, hnone]

/-- Witness for C1 at the worked example. -/
theorem C1_asset_selection_witness :
    findDownloadUrl Arch.arm64 OS.MacOS ([exampleLinuxAsset] ++ exampleMacAsset :: []) =
      some exampleMacAsset.browser_download_url ∧
    (download_and_extract OS.MacOS Arch.x86_64 exampleRelease none
        { tarExists := false, binExists := false }).1 = Except.error 1 :=
  ⟨C1_asset_selection.1 Arch.arm64 OS.MacOS [exampleLinuxAsset] [] exampleMacAsset
      (by decide) (by decide),
   C1_asset_selection.2.1 OS.MacOS Arch.x86_64 exampleRelease none
      { tarExists := false, binExists := false } (by decide)⟩

/-- C2: beta-channel resolution keeps the releases whose pre-release flag is
true and selects the first of them in the existing order of the list; when
there is none it falls back to the latest stable release and emits the
fallback diagnostic. -/
theorem C2_beta_resolution :
    ∀ (releases : List GithubRelease) (latest : GithubRelease),
      (releases.find? (fun r => r.prerelease) = none →
        get_release_data Channel.beta (Except.ok releases) (Except.ok latest) =
          Except.ok (latest, [lookingForBetaMsg, fallbackMsg])) ∧
      (∀ r : GithubRelease, releases.find? (fun r => r.prerelease) = some r →
        get_release_data Channel.beta (Except.ok releases) (Except.ok latest) =
          Except.ok (r, [lookingForBetaMsg,
            "Found pre-release version: " ++ r.tag_name])) := by
  intro releases latest
  constructor
  · intro h
    have hh := filter_prerelease_head releases
    rw [h] at hh
    have hf : releases.filter (fun r => r.prerelease) = [] := by
      rcases hx : releases.filter (fun r => r.prerelease) with _ | ⟨a, tl⟩
      · exact hx
      · rw [hx] at hh
        simp at hh
    simp [get_release_data, hf]
  · intro r h
    have hh := filter_prerelease_head releases
    rw [h] at hh
    rcases hf : releases.filter (fun r => r.prerelease) with _ | ⟨a, tl⟩
    · rw [hf] at hh
      simp at hh
    · rw [hf] at hh
      simp at hh
      subst hh
      simp [get_release_data, hf]

/-- Witness for C2: fallback on a list with no pre-release, and first-match
selection on a list whose second entry is the only pre-release. -/
theorem C2_beta_resolution_witness :
    get_release_data Channel.beta (Except.ok [exampleRelease])
        (Except.ok exampleRelease) =
      Except.ok (exampleRelease, [lookingForBetaMsg, fallbackMsg]) ∧
    get_release_data Channel.beta (Except.ok [exampleRelease, examplePreRelease])
        (Except.ok exampleRelease) =
      Except.ok (examplePreRelease, [lookingForBetaMsg,
        "Found pre-release version: " ++ examplePreRelease.tag_name]) :=
  ⟨(C2_beta_resolution [exampleRelease] exampleRelease).1 (by decide),
   (C2_beta_resolution [exampleRelease, examplePreRelease] exampleRelease).2
      examplePreRelease (by decide)⟩

/-- C4: once an asset is selected and the download begins, every exit path of
download_and_extract, successful or raising at any step, ends with both
temporary files absent: the finally block deletes whatever exists. -/
theorem C4_cleanup_always :
    ∀ (user_os : OS) (user_arch : Arch) (release : GithubRelease)
      (fail : Option InstallFailure) (fs0 : TmpFiles) (url : String),
      findDownloadUrl user_arch user_os release.assets = some url →
      (download_and_extract user_os user_arch release fail fs0).2 =
        { tarExists := false, binExists := false } := by
  intro user_os user_arch release fail fs0 url h
  have hclean : ∀ fs : TmpFiles,
      installCleanup fs = { tarExists := false, binExists := false } := by
    intro fs
    cases fs with
    | mk t b => cases t <;> cases b <;> rfl
  unfold download_and_extract
  rw [h]
  rcases hb : installBody user_os fail fs0 with ⟨fs1, raised⟩
  cases raised <;> simp [hb, hclean]

/-- Witness for C4: a run whose download raises after partially writing the
archive still ends with both temporary files absent. -/
theorem C4_cleanup_always_witness :
    (download_and_extract OS.Linux Arch.x86_64 exampleRelease
        (some (InstallFailure.duringDownload true))
        { tarExists := false, binExists := false }).2 =
      { tarExists := false, binExists := false } :=
  C4_cleanup_always OS.Linux Arch.x86_64 exampleRelease
    (some (InstallFailure.duringDownload true))
    { tarExists := false, binExists := false } "u1" (by decide)

/-- C5 counterexample: on Python 3.11, a supported runtime where the filter
keyword of extractall is unavailable, tar_extract calls extractall with no
filter and no per-entry validation, so the traversal entry dot-dot-slash-evil
is written outside the extraction target directory, contrary to the claim
that no archive entry is ever written outside it. -/
theorem C5_counterexample :
    tar_extract_mode 3 11 = some ExtractMode.unfiltered ∧
    writtenOutsideTarget ExtractMode.unfiltered "../evil" = true :=
  ⟨rfl, by decide⟩

/-- C5 amended: from Python 3.12 on, tar_extract enables the data filter and
no entry is written outside the target; on supported versions below 3.12 it
calls extractall unfiltered, performing no validation, and a traversal entry
is written outside the target. -/
theorem C5_tar_extract :
    (∀ major minor : Nat, (3 < major ∨ (major = 3 ∧ 12 ≤ minor)) →
      tar_extract_mode major minor = some ExtractMode.dataFilter) ∧
    (∀ entryName : String,
      writtenOutsideTarget ExtractMode.dataFilter entryName = false) ∧
    (∀ minor : Nat, minor < 12 →
      tar_extract_mode 3 minor = some ExtractMode.unfiltered) ∧
    writtenOutsideTarget ExtractMode.unfiltered "../evil" = true := by
  refine ⟨?_, fun _ => rfl, ?_, by decide⟩
  · intro major minor h
    unfold tar_extract_mode
    rw [if_neg, if_pos]
    · exact h
    · omega
  · intro minor h
    unfold tar_extract_mode
    rw [if_pos]
    omega

/-- Witness for C5 amended at concrete versions. -/
theorem C5_tar_extract_witness :
    tar_extract_mode 3 12 = some ExtractMode.dataFilter ∧
    tar_extract_mode 3 11 = some ExtractMode.unfiltered :=
  ⟨C5_tar_extract.1 3 12 (Or.inr ⟨rfl, by omega⟩),
   C5_tar_extract.2.2.1 11 (by omega)⟩

/-- C7: when the install directory is already one of the colon-delimited
components of PATH, setup_path prints nothing at all. -/
theorem C7_setup_path_silent :
    ∀ target_location path_env shell_env home : String,
      (pySplit path_env ':').contains target_location = true →
      setup_path target_location path_env shell_env home = [] := by
  intro t p s home hmem
  have hm : t ∈ pySplit p ':' := by simpa using hmem
  simp [setup_path, hm]

/-- Witness for C7 at a concrete PATH. -/
theorem C7_setup_path_silent_witness :
    setup_path "/usr/local/bin" "/usr/local/bin:/usr/bin" "/bin/bash" "/root" = [] :=
  C7_setup_path_silent "/usr/local/bin" "/usr/local/bin:/usr/bin" "/bin/bash" "/root"
    (by decide)

/-- C6: shell integration matches the file-name component of SHELL
case-insensitively against bash, zsh and fish; an unrecognized or absent
value prints nothing further than the PATH instruction, and each recognized
shell gets exactly the one-line command appending the PATH-exporting line to
its profile file. The printed lines are the whole effect: the model returns
output only, the command is never run. -/
theorem C6_shell_integration :
    (∀ v : String, Shell.from_str v = some Shell.bash ↔ pyLower v = "bash") ∧
    (∀ v : String, Shell.from_str v = some Shell.zsh ↔ pyLower v = "zsh") ∧
    (∀ v : String, Shell.from_str v = some Shell.fish ↔ pyLower v = "fish") ∧
    (∀ target path_env shell_env home : String,
      (pySplit path_env ':').contains target = false →
      Shell.from_str (basename shell_env) = none →
      setup_path target path_env shell_env home =
        ["\nTo start using Linkup, add \x27" ++ target ++ "\x27 to your PATH."]) ∧
    (∀ target path_env shell_env home : String,
      (pySplit path_env ':').contains target = false →
      Shell.from_str (basename shell_env) = some Shell.bash →
      setup_path target path_env shell_env home =
        ["\nTo start using Linkup, add \x27" ++ target ++ "\x27 to your PATH.",
         "Since you are using bash, you can run the following to add to your profile:",
         "\n  echo \x27export PATH=$PATH:" ++ target ++ "\x27 >> " ++ home ++ "/.bashrc",
         "\nThen restart your shell."]) ∧
    (∀ target path_env shell_env home : String,
      (pySplit path_env ':').contains target = false →
      Shell.from_str (basename shell_env) = some Shell.zsh →
      setup_path target path_env shell_env home =
        ["\nTo start using Linkup, add \x27" ++ target ++ "\x27 to your PATH.",
         "Since you are using zsh, you can run the following to add to your profile:",
         "\n  echo \x27export PATH=$PATH:" ++ target ++ "\x27 >> " ++ home ++ "/.zshrc",
         "\nThen restart your shell."]) ∧
    (∀ target path_env shell_env home : String,
      (pySplit path_env ':').contains target = false →
      Shell.from_str (basename shell_env) = some Shell.fish →
      setup_path target path_env shell_env home =
        ["\nTo start using Linkup, add \x27" ++ target ++ "\x27 to your PATH.",
         "Since you are using fish, you can run the following to add to your profile:",
         "\n  echo \x27set -gx PATH $PATH " ++ target ++ "\x27 >> " ++ home
           ++ "/.config/fish/config.fish",
         "\nThen restart your shell."]) := by
  refine ⟨?_, ?_, ?_, ?_, ?_, ?_, ?_⟩
  · intro v
    simp only [Shell.from_str]
    split_ifs with h1 h2 h3 <;> simp_all
  · intro v
    simp only [Shell.from_str]
    split_ifs with h1 h2 h3 <;> simp_all
  · intro v
    simp only [Shell.from_str]
    split_ifs with h1 h2 h3 <;> simp_all
  · intro target path_env shell_env home hmem hshell
    have hm : target ∉ pySplit path_env ':' := by simpa using hmem
    simp [setup_path, hm, hshell]
  · intro target path_env shell_env home hmem hshell
    have hm : target ∉ pySplit path_env ':' := by simpa using hmem
    simp [setup_path, hm, hshell, Shell.add_to_profile_command, Shell.name,
      ← String.append_assoc]
  · intro target path_env shell_env home hmem hshell
    have hm : target ∉ pySplit path_env ':' := by simpa using hmem
    simp [setup_path, hm, hshell, Shell.add_to_profile_command, Shell.name,
      ← String.append_assoc]
  · intro target path_env shell_env home hmem hshell
    have hm : target ∉ pySplit path_env ':' := by simpa using hmem
    simp [setup_path, hm, hshell, Shell.add_to_profile_command, Shell.name,
      ← String.append_assoc]

/-- Witness for C6: SHELL set to the fish binary path, as in the spec
example, and separately an unrecognized shell. -/
theorem C6_shell_integration_witness :
    setup_path "/root/.linkup/bin" "" "/bin/fish" "/root" =
      ["\nTo start using Linkup, add \x27/root/.linkup/bin\x27 to your PATH.",
       "Since you are using fish, you can run the following to add to your profile:",
       "\n  echo \x27set -gx PATH $PATH /root/.linkup/bin\x27 >> /root"
         ++ "/.config/fish/config.fish",
       "\nThen restart your shell."] ∧
    setup_path "/root/.linkup/bin" "" "/bin/ksh" "/root" =
      ["\nTo start using Linkup, add \x27/root/.linkup/bin\x27 to your PATH."] := by
  constructor
  · have h := C6_shell_integration.2.2.2.2.2.2 "/root/.linkup/bin" "" "/bin/fish" "/root"
      (by decide) (by decide)
    rw [h]
    simp
  · have h := C6_shell_integration.2.2.2.1 "/root/.linkup/bin" "" "/bin/ksh" "/root"
      (by decide) (by decide)
    rw [h]
    simp

/-- Every error of the argparse model carries exit code 2, by induction on a
length bound (the loop consumes one or two tokens per step). -/
theorem parseArgsLoop_error_code :
    ∀ (fuel : Nat) (args : List String), args.length ≤ fuel →
      ∀ (acc : Option Channel) (c : Nat),
        parseArgsLoop args acc = Except.error c → c = 2 := by
  intro fuel
  induction fuel with
  | zero =>
    intro args hlen acc c h
    have hnil : args = [] := List.length_eq_zero.mp (Nat.le_zero.mp hlen)
    subst hnil
    simp [parseArgsLoop] at h
  | succ n ih =>
    intro args hlen acc c h
    cases args with
    | nil => simp [parseArgsLoop] at h
    | cons s rest =>
      simp only [List.length_cons] at hlen
      cases rest with
      | nil =>
        simp only [parseArgsLoop] at h
        split_ifs at h with h1 h2 h3 <;>
          first
            | (injection h with h9; omega)
            | exact ih [] (by omega) _ _ h
      | cons v rest2 =>
        simp only [List.length_cons] at hlen
        simp only [parseArgsLoop] at h
        split_ifs at h with h1 h2 h3 h4 h5 <;>
          first
            | (injection h with h9; omega)
            | exact ih rest2 (by omega) _ _ h
            | exact ih (v :: rest2) (by simp only [List.length_cons]; omega) _ _ h

/-- Every error of parse_arguments carries exit code 2. -/
theorem parse_arguments_error_code (args : List String) (c : Nat)
    (h : parse_arguments args = Except.error c) : c = 2 := by
  unfold parse_arguments at h
  split at h
  · next c2 heq =>
    injection h with h2
    subst h2
    exact parseArgsLoop_error_code args.length args (le_refl _) none c2 heq
  · exact absurd h (by simp)
  · exact absurd h (by simp)

/-- C9: argument parsing accepts only the channel flag with value stable or
beta, defaults to stable when absent, and any other value is an argument
error with exit code 2, which is non-zero. -/
theorem C9_parse_arguments :
    parse_arguments [] = Except.ok Channel.stable ∧
    parse_arguments ["--channel", "stable"] = Except.ok Channel.stable ∧
    parse_arguments ["--channel", "beta"] = Except.ok Channel.beta ∧
    parse_arguments ["--channel=stable"] = Except.ok Channel.stable ∧
    parse_arguments ["--channel=beta"] = Except.ok Channel.beta ∧
    (∀ v : String, v ≠ "stable" → v ≠ "beta" →
      parse_arguments ["--channel", v] = Except.error 2) ∧
    (2 : Nat) ≠ 0 := by
  refine ⟨rfl, rfl, rfl, rfl, rfl, ?_, by omega⟩
  intro v h1 h2
  simp [parse_arguments, parseArgsLoop, h1, h2]

/-- Witness for C9 at a rejected channel value. -/
theorem C9_parse_arguments_witness :
    parse_arguments ["--channel", "nightly"] = Except.error 2 :=
  C9_parse_arguments.2.2.2.2.2.1 "nightly" (by decide) (by decide)

/-- Every fatal exit of detect_platform carries exit code 1. -/
theorem detect_platform_error_code (sysname machine msg : String) (c : Nat)
    (h : detect_platform sysname machine = Except.error (msg, c)) : c = 1 := by
  unfold detect_platform at h
  split at h
  · simp only [Except.error.injEq, Prod.mk.injEq] at h
    omega
  · split at h
    · simp only [Except.error.injEq, Prod.mk.injEq] at h
      omega
    · exact absurd h (by simp)

/-- Every fatal exit of get_release_data carries exit code 1. -/
theorem get_release_data_error_code (channel : Channel)
    (rr : Except Unit (List GithubRelease)) (ls : Except Unit GithubRelease)
    (c : Nat) (h : get_release_data channel rr ls = Except.error c) : c = 1 := by
  cases channel with
  | stable =>
    cases ls with
    | error u => simp [get_release_data] at h; omega
    | ok l => simp [get_release_data] at h
  | beta =>
    cases rr with
    | error u => simp [get_release_data] at h; omega
    | ok releases =>
      rcases hf : releases.filter (fun r => r.prerelease) with _ | ⟨a, tl⟩
      · cases ls with
        | error u => simp [get_release_data, hf] at h; omega
        | ok latest => simp [get_release_data, hf] at h
      · simp [get_release_data, hf] at h

/-- Every fatal exit of download_and_extract carries exit code 1. -/
theorem download_and_extract_error_code (user_os : OS) (user_arch : Arch)
    (release : GithubRelease) (fail : Option InstallFailure) (fs0 : TmpFiles)
    (c : Nat)
    (h : (download_and_extract user_os user_arch release fail fs0).1 =
      Except.error c) : c = 1 := by
  unfold download_and_extract at h
  rcases hf : findDownloadUrl user_arch user_os release.assets with _ | u
  · rw [hf] at h
    simp at h
    omega
  · rw [hf] at h
    rcases hb : installBody user_os fail fs0 with ⟨fs1, raised⟩
    cases raised <;> simp_all

/-- C8: the already-installed condition is a successful exit with code 0 and
the informational update message, never an error; every fatal class
(argument error, missing cloudflared, unsupported platform, network failure,
missing asset or failure inside download_and_extract) exits non-zero. -/
theorem C8_exit_codes :
    (∀ w : World, w.linkupOnPath = true → main w = (0, [alreadyInstalledMsg])) ∧
    (∀ (w : World) (c : Nat), w.linkupOnPath = false →
      parse_arguments w.argv = Except.error c → (main w).1 = c ∧ c ≠ 0) ∧
    (∀ (w : World) (channel : Channel), w.linkupOnPath = false →
      parse_arguments w.argv = Except.ok channel → w.cloudflaredOnPath = false →
      main w = (1, cloudflaredWarnMsgs)) ∧
    (∀ (w : World) (channel : Channel) (msg : String) (c : Nat),
      w.linkupOnPath = false → parse_arguments w.argv = Except.ok channel →
      w.cloudflaredOnPath = true →
      detect_platform w.sysname w.machine = Except.error (msg, c) →
      (main w).1 = c ∧ c ≠ 0) ∧
    (∀ (w : World) (channel : Channel) (osarch : OS × Arch) (c : Nat),
      w.linkupOnPath = false → parse_arguments w.argv = Except.ok channel →
      w.cloudflaredOnPath = true →
      detect_platform w.sysname w.machine = Except.ok osarch →
      get_release_data channel w.releasesResult w.latestStableResult =
        Except.error c →
      (main w).1 = c ∧ c ≠ 0) ∧
    (∀ (w : World) (channel : Channel) (osarch : OS × Arch)
       (rel : GithubRelease × List String) (c : Nat),
      w.linkupOnPath = false → parse_arguments w.argv = Except.ok channel →
      w.cloudflaredOnPath = true →
      detect_platform w.sysname w.machine = Except.ok osarch →
      get_release_data channel w.releasesResult w.latestStableResult =
        Except.ok rel →
      (download_and_extract osarch.1 osarch.2 rel.1 w.installFailure
        { tarExists := false, binExists := false }).1 = Except.error c →
      (main w).1 = c ∧ c ≠ 0) := by
  refine ⟨?_, ?_, ?_, ?_, ?_, ?_⟩
  · intro w h
    simp [main, h]
  · intro w c h hp
    have hc := parse_arguments_error_code w.argv c hp
    subst hc
    refine ⟨?_, by omega⟩
    simp [main, h, hp]
  · intro w channel h hp hc
    simp [main, h, hp, hc]
  · intro w channel msg c h hp hc hd
    have hc1 := detect_platform_error_code w.sysname w.machine msg c hd
    subst hc1
    refine ⟨?_, by omega⟩
    simp [main, h, hp, hc, hd]
  · intro w channel osarch c h hp hc hd hr
    obtain ⟨user_os, user_arch⟩ := osarch
    have hc1 := get_release_data_error_code channel w.releasesResult
      w.latestStableResult c hr
    subst hc1
    refine ⟨?_, by omega⟩
    simp [main, h, hp, hc, hd, hr]
  · intro w channel osarch rel c h hp hc hd hr hdl
    obtain ⟨user_os, user_arch⟩ := osarch
    obtain ⟨release, msgs⟩ := rel
    have hc1 := download_and_extract_error_code user_os user_arch release
      w.installFailure { tarExists := false, binExists := false } c hdl
    subst hc1
    refine ⟨?_, by omega⟩
    rcases hinst : download_and_extract user_os user_arch release w.installFailure
        { tarExists := false, binExists := false } with ⟨res, fs⟩
    rw [hinst] at hdl
    simp only at hdl
    simp [main, h, hp, hc, hd, hr, hinst, hdl]

/-- Witness for C8: the missing-dependency world exits 1. -/
theorem C8_exit_codes_witness :
    main exampleWorldNoDep = (1, cloudflaredWarnMsgs) :=
  C8_exit_codes.2.2.1 exampleWorldNoDep Channel.stable rfl rfl rfl

/-- C10: the already-installed check runs before argument parsing: with
linkup resolvable on PATH, even an argument list the parser rejects produces
the informational message and exit code 0, with no argument error. -/
theorem C10_preflight_first :
    ∀ (w : World) (c : Nat), w.linkupOnPath = true →
      parse_arguments w.argv = Except.error c →
      main w = (0, [alreadyInstalledMsg]) := by
  intro w c h hp
  simp [main, h]

/-- Witness for C10: a world with invalid arguments and linkup installed. -/
theorem C10_preflight_first_witness :
    main exampleWorldInstalled = (0, [alreadyInstalledMsg]) :=
  C10_preflight_first exampleWorldInstalled 2 rfl rfl

end Linkup
